import Mathlib

/-!
Shallow embedding of `src/damage_calculator.py` (Game-Damage- repository).

Numbers are modelled as rationals (`ℚ`), idealising Python float arithmetic.
The single random draw `random.random()` inside `calculate_damage` is passed in
as an explicit parameter `r`; Python guarantees `0 ≤ r < 1`, which theorems that
need it take as a hypothesis.  Python's `round(x, 2)` is modelled as decimal
rounding to two places with ties to even (`pyRound2`), and `int(x)` as
truncation toward zero (`pyTrunc`).  The mutable `self.damage_log` is modelled
by explicit state passing: each method takes a `DamageCalculator` and returns
the result together with the updated calculator.
-/

namespace DamageCalc

/-- `class DamageType(Enum)` from the source. -/
inductive DamageType where
  | PHYSICAL
  | MAGICAL
  | TRUE
  | FIRE
  | ICE
  | POISON
deriving DecidableEq, Repr

/-- The `.value` string of each enum member. -/
def DamageType.value : DamageType → String
  | .PHYSICAL => "physical"
  | .MAGICAL => "magical"
  | .TRUE => "true"
  | .FIRE => "fire"
  | .ICE => "ice"
  | .POISON => "poison"

/-- `@dataclass class Attacker` from the source. -/
structure Attacker where
  name : String
  base_damage : ℚ
  crit_chance : ℚ
  crit_multiplier : ℚ
  armor_penetration : ℚ
deriving DecidableEq

/-- `@dataclass class Defender`; `resistances` is the dict, as an association
list from damage type to resistance value. -/
structure Defender where
  name : String
  armor : ℚ
  resistances : List (DamageType × ℚ)
deriving DecidableEq

/-- `defender.resistances.get(damage_type, 0)`: the stored resistance for the
type, or 0 when absent. -/
def Defender.getResistance (d : Defender) (dt : DamageType) : ℚ :=
  match d.resistances.find? (fun p => decide (p.1 = dt)) with
  | some p => p.2
  | none => 0

/-- The result dict built by `calculate_damage`. -/
structure DamageResult where
  attacker : String
  defender : String
  base_damage : ℚ
  is_critical : Bool
  damage_after_crit : ℚ
  damage_type : String
  reduction : ℚ
  final_damage : ℚ
deriving DecidableEq

/-- The result dict built by `calculate_dot`. -/
structure DotResult where
  tick_damage : ℚ
  num_ticks : ℤ
  total_damage : ℚ
  duration : ℚ
deriving DecidableEq

/-- `class DamageCalculator`: its only state is `self.damage_log`. -/
structure DamageCalculator where
  damage_log : List DamageResult
deriving DecidableEq

/-- Python `round(x, 2)` step 1: round a rational to the nearest integer with
ties going to the even integer (Python's rounding mode for `round`). -/
def roundHalfEven (x : ℚ) : ℤ :=
  if x - ⌊x⌋ < 1/2 then ⌊x⌋
  else if 1/2 < x - ⌊x⌋ then ⌊x⌋ + 1
  else if ⌊x⌋ % 2 = 0 then ⌊x⌋ else ⌊x⌋ + 1

/-- Python `round(q, 2)`: round to two decimal places, ties to even. -/
def pyRound2 (q : ℚ) : ℚ := (roundHalfEven (q * 100) : ℚ) / 100

/-- Python `int(q)` on a real value: truncation toward zero. -/
def pyTrunc (q : ℚ) : ℤ := if 0 ≤ q then ⌊q⌋ else -⌊-q⌋

/-- Source lines 54-55: `crit_damage = base * attacker.crit_multiplier if
is_crit else base`, with `base = attacker.base_damage * skill_multiplier` and
`is_crit = r < attacker.crit_chance` for the drawn `r`. -/
def critDamage (attacker : Attacker) (skill_multiplier r : ℚ) : ℚ :=
  if r < attacker.crit_chance then
    attacker.base_damage * skill_multiplier * attacker.crit_multiplier
  else
    attacker.base_damage * skill_multiplier

/-- Source lines 64-71: the resistance for the type, plus, for PHYSICAL only,
`effective_armor = defender.armor * (1 - attacker.armor_penetration)`. -/
def totalReduction (attacker : Attacker) (defender : Defender) (dt : DamageType) : ℚ :=
  if dt = DamageType.PHYSICAL then
    defender.armor * (1 - attacker.armor_penetration) + defender.getResistance dt
  else
    defender.getResistance dt

/-- Source lines 74-78: the diminishing-returns curve,
`t / (t + 100)` for `t ≥ 0` and `t / 100` for `t < 0`. -/
def reductionPercent (t : ℚ) : ℚ :=
  if 0 ≤ t then t / (t + 100) else t / 100

/-- `DamageCalculator.calculate_damage` (source lines 35-95).  `r` is the
value drawn by `random.random()`.  Returns the result dict and the calculator
with the result appended to `damage_log`. -/
def calculate_damage (self : DamageCalculator) (attacker : Attacker) (defender : Defender)
    (damage_type : DamageType) (skill_multiplier r : ℚ) :
    DamageResult × DamageCalculator :=
  let base := attacker.base_damage * skill_multiplier
  let is_crit : Bool := decide (r < attacker.crit_chance)
  let crit_damage := critDamage attacker skill_multiplier r
  let reduction : ℚ :=
    if damage_type = DamageType.TRUE then 0
    else crit_damage * reductionPercent (totalReduction attacker defender damage_type)
  let final_damage : ℚ :=
    if damage_type = DamageType.TRUE then crit_damage
    else max 0 (crit_damage - reduction)
  let result : DamageResult :=
    { attacker := attacker.name
      defender := defender.name
      base_damage := base
      is_critical := is_crit
      damage_after_crit := crit_damage
      damage_type := damage_type.value
      reduction := reduction
      final_damage := pyRound2 final_damage }
  (result, { damage_log := self.damage_log ++ [result] })

/-- `DamageCalculator.calculate_dot` (source lines 97-118).  The method does
not touch `self.damage_log`; the returned calculator is the input unchanged. -/
def calculate_dot (self : DamageCalculator) (base_tick_damage duration tick_rate : ℚ) :
    DotResult × DamageCalculator :=
  let num_ticks := pyTrunc (duration / tick_rate)
  let total_damage := base_tick_damage * (num_ticks : ℚ)
  ({ tick_damage := base_tick_damage
     num_ticks := num_ticks
     total_damage := total_damage
     duration := duration }, self)

/-! ### Characterization lemmas for the fields of `calculate_damage` -/

lemma final_damage_of_true (self : DamageCalculator) (a : Attacker) (d : Defender)
    {dt : DamageType} (sm r : ℚ) (h : dt = DamageType.TRUE) :
    (calculate_damage self a d dt sm r).1.final_damage = pyRound2 (critDamage a sm r) := by
  simp only [calculate_damage, if_pos h]

lemma final_damage_of_ne_true (self : DamageCalculator) (a : Attacker) (d : Defender)
    {dt : DamageType} (sm r : ℚ) (h : dt ≠ DamageType.TRUE) :
    (calculate_damage self a d dt sm r).1.final_damage =
      pyRound2 (max 0 (critDamage a sm r -
        critDamage a sm r * reductionPercent (totalReduction a d dt))) := by
  simp only [calculate_damage, if_neg h]

lemma reduction_of_true (self : DamageCalculator) (a : Attacker) (d : Defender)
    {dt : DamageType} (sm r : ℚ) (h : dt = DamageType.TRUE) :
    (calculate_damage self a d dt sm r).1.reduction = 0 := by
  simp only [calculate_damage, if_pos h]

lemma reduction_of_ne_true (self : DamageCalculator) (a : Attacker) (d : Defender)
    {dt : DamageType} (sm r : ℚ) (h : dt ≠ DamageType.TRUE) :
    (calculate_damage self a d dt sm r).1.reduction =
      critDamage a sm r * reductionPercent (totalReduction a d dt) := by
  simp only [calculate_damage, if_neg h]

lemma damage_after_crit_spec (self : DamageCalculator) (a : Attacker) (d : Defender)
    (dt : DamageType) (sm r : ℚ) :
    (calculate_damage self a d dt sm r).1.damage_after_crit = critDamage a sm r := rfl

lemma is_critical_spec (self : DamageCalculator) (a : Attacker) (d : Defender)
    (dt : DamageType) (sm r : ℚ) :
    (calculate_damage self a d dt sm r).1.is_critical = decide (r < a.crit_chance) := rfl

/-! ### Arithmetic lemmas about the rounding and mitigation helpers -/

lemma roundHalfEven_ge_floor (x : ℚ) : ⌊x⌋ ≤ roundHalfEven x := by
  unfold roundHalfEven
  split_ifs <;> omega

lemma roundHalfEven_le_floor_add_one (x : ℚ) : roundHalfEven x ≤ ⌊x⌋ + 1 := by
  unfold roundHalfEven
  split_ifs <;> omega

lemma roundHalfEven_mono {x y : ℚ} (h : x ≤ y) : roundHalfEven x ≤ roundHalfEven y := by
  rcases lt_or_eq_of_le (Int.floor_mono h) with hf | hf
  · calc roundHalfEven x ≤ ⌊x⌋ + 1 := roundHalfEven_le_floor_add_one x
      _ ≤ ⌊y⌋ := by omega
      _ ≤ roundHalfEven y := roundHalfEven_ge_floor y
  · unfold roundHalfEven
    rw [← hf]
    have hfr : x - (⌊x⌋ : ℚ) ≤ y - (⌊x⌋ : ℚ) := by linarith
    split_ifs <;> first | omega | linarith

lemma pyRound2_mono {x y : ℚ} (h : x ≤ y) : pyRound2 x ≤ pyRound2 y := by
  unfold pyRound2
  have hr : roundHalfEven (x * 100) ≤ roundHalfEven (y * 100) :=
    roundHalfEven_mono (by linarith)
  have : (roundHalfEven (x * 100) : ℚ) ≤ (roundHalfEven (y * 100) : ℚ) := by
    exact_mod_cast hr
  linarith

lemma pyRound2_zero : pyRound2 0 = 0 := by
  norm_num [pyRound2, roundHalfEven]

lemma pyRound2_nonneg {x : ℚ} (h : 0 ≤ x) : 0 ≤ pyRound2 x := by
  have := pyRound2_mono h
  rwa [pyRound2_zero] at this

lemma reductionPercent_mono {t1 t2 : ℚ} (h : t1 ≤ t2) :
    reductionPercent t1 ≤ reductionPercent t2 := by
  unfold reductionPercent
  split_ifs with h1 h2 h3
  · rw [div_le_div_iff₀ (by linarith) (by linarith)]
    nlinarith
  · linarith
  · have hneg : t1 / 100 < 0 := div_neg_of_neg_of_pos (lt_of_not_le h1) (by norm_num)
    have hpos : 0 ≤ t2 / (t2 + 100) := div_nonneg h3 (by linarith)
    linarith
  · exact div_le_div_iff_of_pos_right (by norm_num) |>.mpr h

lemma reductionPercent_lt_one (t : ℚ) : reductionPercent t < 1 := by
  unfold reductionPercent
  split_ifs with h1
  · rw [div_lt_one (by linarith)]
    linarith
  · have : t / 100 < 0 := div_neg_of_neg_of_pos (lt_of_not_le h1) (by norm_num)
    linarith

lemma totalReduction_mono {a : Attacker} {d1 d2 : Defender} {dt : DamageType}
    (harm : d1.armor = d2.armor)
    (hle : d1.getResistance dt ≤ d2.getResistance dt) :
    totalReduction a d1 dt ≤ totalReduction a d2 dt := by
  unfold totalReduction
  split_ifs
  · rw [harm]
    linarith
  · exact hle

lemma rawFinal_antitone (c : ℚ) {t1 t2 : ℚ} (h : t1 ≤ t2) :
    max 0 (c - c * reductionPercent t2) ≤ max 0 (c - c * reductionPercent t1) := by
  rcases le_or_lt 0 c with hc | hc
  · have hm : c * reductionPercent t1 ≤ c * reductionPercent t2 :=
      mul_le_mul_of_nonneg_left (reductionPercent_mono h) hc
    exact max_le_max le_rfl (by linarith)
  · have h1 : c - c * reductionPercent t1 < 0 := by
      have e : c - c * reductionPercent t1 = c * (1 - reductionPercent t1) := by ring
      rw [e]
      exact mul_neg_of_neg_of_pos hc (by linarith [reductionPercent_lt_one t1])
    have h2 : c - c * reductionPercent t2 < 0 := by
      have e : c - c * reductionPercent t2 = c * (1 - reductionPercent t2) := by ring
      rw [e]
      exact mul_neg_of_neg_of_pos hc (by linarith [reductionPercent_lt_one t2])
    rw [max_eq_left h1.le, max_eq_left h2.le]

/-! ### Claims -/

/-- C2 counterexample: for the TRUE damage type with `base_damage = 1/500`
(0.002) and no critical, the stored `final_damage` is `round(0.002, 2) = 0`,
which differs from `damage_after_crit = 0.002`. -/
theorem C2_counterexample :
    (calculate_damage ⟨[]⟩ ⟨"A", 1/500, 0, 2, 0⟩ ⟨"D", 0, []⟩
        DamageType.TRUE 1 (1/2)).1.final_damage ≠
      (calculate_damage ⟨[]⟩ ⟨"A", 1/500, 0, 2, 0⟩ ⟨"D", 0, []⟩
        DamageType.TRUE 1 (1/2)).1.damage_after_crit := by
  rw [final_damage_of_true _ _ _ _ _ rfl, damage_after_crit_spec]
  norm_num [critDamage, pyRound2, roundHalfEven]

/-- C2 (amended): for every call with `damage_type = TRUE`, the result has
`reduction = 0` and `final_damage` equal to `damage_after_crit` rounded to two
decimal places, regardless of armor, resistances, penetration or crit. -/
theorem C2_true_damage (self : DamageCalculator) (a : Attacker) (d : Defender)
    (dt : DamageType) (sm r : ℚ) (h : dt = DamageType.TRUE) :
    (calculate_damage self a d dt sm r).1.reduction = 0 ∧
    (calculate_damage self a d dt sm r).1.final_damage =
      pyRound2 ((calculate_damage self a d dt sm r).1.damage_after_crit) :=
  ⟨reduction_of_true self a d sm r h, by
    rw [final_damage_of_true self a d sm r h, damage_after_crit_spec]⟩

/-- C2 witness: the amended claim applied at a concrete TRUE-damage call. -/
theorem C2_true_damage_witness :
    (calculate_damage ⟨[]⟩ ⟨"A", 100, 0, 2, 0⟩ ⟨"D", 50, []⟩
        DamageType.TRUE 1 (1/2)).1.reduction = 0 ∧
    (calculate_damage ⟨[]⟩ ⟨"A", 100, 0, 2, 0⟩ ⟨"D", 50, []⟩
        DamageType.TRUE 1 (1/2)).1.final_damage =
      pyRound2 ((calculate_damage ⟨[]⟩ ⟨"A", 100, 0, 2, 0⟩ ⟨"D", 50, []⟩
        DamageType.TRUE 1 (1/2)).1.damage_after_crit) :=
  C2_true_damage ⟨[]⟩ ⟨"A", 100, 0, 2, 0⟩ ⟨"D", 50, []⟩ DamageType.TRUE 1 (1/2) rfl

/-- C3: `calculate_dot` computes `num_ticks` as truncation toward zero of
`duration / tick_rate` and `total_damage = tick_damage * num_ticks`; in
particular `calculate_dot 10 9 2` yields 4 ticks and total damage 40. -/
theorem C3_dot_ticks_total :
    (∀ (self : DamageCalculator) (td du tr : ℚ),
        (calculate_dot self td du tr).1.num_ticks = pyTrunc (du / tr) ∧
        (calculate_dot self td du tr).1.total_damage =
          td * ((calculate_dot self td du tr).1.num_ticks : ℚ)) ∧
    (calculate_dot ⟨[]⟩ 10 9 2).1.num_ticks = 4 ∧
    (calculate_dot ⟨[]⟩ 10 9 2).1.total_damage = 40 := by
  refine ⟨fun self td du tr => ⟨rfl, rfl⟩, ?_, ?_⟩ <;>
    norm_num [calculate_dot, pyTrunc]

/-- C10: `calculate_dot` truncates toward zero, not toward negative infinity:
at `duration = -9`, `tick_rate = 2` the quotient -4.5 gives `num_ticks = -4`
(the floor would be -5) and `total_damage = 10 * (-4) = -40`. -/
theorem C10_dot_trunc_toward_zero :
    (calculate_dot ⟨[]⟩ 10 (-9) 2).1.num_ticks = -4 ∧
    (calculate_dot ⟨[]⟩ 10 (-9) 2).1.total_damage = 10 * (-4) ∧
    (calculate_dot ⟨[]⟩ 10 (-9) 2).1.num_ticks ≠ ⌊(-9 : ℚ) / 2⌋ := by
  norm_num [calculate_dot, pyTrunc]

/-- C9: every `calculate_damage` call appends exactly the returned result to
the calculator's `damage_log`, and `calculate_dot` leaves the calculator
(and hence the log) unchanged. -/
theorem C9_history_log :
    (∀ (self : DamageCalculator) (a : Attacker) (d : Defender)
        (dt : DamageType) (sm r : ℚ),
        (calculate_damage self a d dt sm r).2.damage_log =
          self.damage_log ++ [(calculate_damage self a d dt sm r).1]) ∧
    (∀ (self : DamageCalculator) (td du tr : ℚ),
        (calculate_dot self td du tr).2 = self) :=
  ⟨fun _ _ _ _ _ _ => rfl, fun _ _ _ _ => rfl⟩

/-- C8: `is_critical` is exactly the comparison `r < crit_chance` of the drawn
`r` in [0,1); with `crit_chance ≥ 1` the hit always crits and
`damage_after_crit = base * crit_multiplier`; with `crit_chance ≤ 0` it never
crits and `damage_after_crit = base`. -/
theorem C8_critical_resolution (self : DamageCalculator) (a : Attacker) (d : Defender)
    (dt : DamageType) (sm r : ℚ) (h0 : 0 ≤ r) (h1 : r < 1) :
    (calculate_damage self a d dt sm r).1.is_critical = decide (r < a.crit_chance) ∧
    (1 ≤ a.crit_chance →
      (calculate_damage self a d dt sm r).1.is_critical = true ∧
      (calculate_damage self a d dt sm r).1.damage_after_crit =
        a.base_damage * sm * a.crit_multiplier) ∧
    (a.crit_chance ≤ 0 →
      (calculate_damage self a d dt sm r).1.is_critical = false ∧
      (calculate_damage self a d dt sm r).1.damage_after_crit =
        a.base_damage * sm) := by
  refine ⟨is_critical_spec self a d dt sm r, fun hc => ?_, fun hc => ?_⟩
  · have hlt : r < a.crit_chance := lt_of_lt_of_le h1 hc
    refine ⟨?_, ?_⟩
    · rw [is_critical_spec]
      exact decide_eq_true hlt
    · rw [damage_after_crit_spec]
      unfold critDamage
      rw [if_pos hlt]
  · have hnlt : ¬ r < a.crit_chance := not_lt.mpr (le_trans hc h0)
    refine ⟨?_, ?_⟩
    · rw [is_critical_spec]
      exact decide_eq_false hnlt
    · rw [damage_after_crit_spec]
      unfold critDamage
      rw [if_neg hnlt]

/-- C8 witness: with `crit_chance = 1` and the draw `r = 1/2`, the hit crits
and `damage_after_crit = 10 * 1 * 2`. -/
theorem C8_critical_resolution_witness :
    (calculate_damage ⟨[]⟩ ⟨"A", 10, 1, 2, 0⟩ ⟨"D", 0, []⟩
        DamageType.PHYSICAL 1 (1/2)).1.is_critical = true ∧
    (calculate_damage ⟨[]⟩ ⟨"A", 10, 1, 2, 0⟩ ⟨"D", 0, []⟩
        DamageType.PHYSICAL 1 (1/2)).1.damage_after_crit = (10 : ℚ) * 1 * 2 :=
  (C8_critical_resolution ⟨[]⟩ ⟨"A", 10, 1, 2, 0⟩ ⟨"D", 0, []⟩
      DamageType.PHYSICAL 1 (1/2) (by norm_num) (by norm_num)).2.1 (by norm_num)

/-- C1 counterexample: for the TRUE damage type with `skill_multiplier = -1`,
the code assigns `final_damage = crit_damage` with no `max(0, ...)` floor, so
the returned `final_damage` is -100, strictly negative. -/
theorem C1_counterexample :
    (calculate_damage ⟨[]⟩ ⟨"A", 100, 0, 2, 0⟩ ⟨"D", 0, []⟩
        DamageType.TRUE (-1) (1/2)).1.final_damage < 0 := by
  rw [final_damage_of_true _ _ _ _ _ rfl]
  norm_num [critDamage, pyRound2, roundHalfEven]

/-- C1 (amended): `final_damage ≥ 0` for every call with a non-TRUE damage
type; on the TRUE branch the `max(0, ...)` floor is skipped, and
`final_damage ≥ 0` holds there whenever `damage_after_crit ≥ 0`. -/
theorem C1_final_nonneg (self : DamageCalculator) (a : Attacker) (d : Defender)
    (dt : DamageType) (sm r : ℚ)
    (h : dt ≠ DamageType.TRUE ∨
      0 ≤ (calculate_damage self a d dt sm r).1.damage_after_crit) :
    0 ≤ (calculate_damage self a d dt sm r).1.final_damage := by
  by_cases hdt : dt = DamageType.TRUE
  · rcases h with h | h
    · exact absurd hdt h
    · rw [final_damage_of_true self a d sm r hdt]
      exact pyRound2_nonneg (by rwa [damage_after_crit_spec] at h)
  · rw [final_damage_of_ne_true self a d sm r hdt]
    exact pyRound2_nonneg (le_max_left _ _)

/-- C1 witness: the amended claim applied at a concrete physical hit. -/
theorem C1_final_nonneg_witness :
    0 ≤ (calculate_damage ⟨[]⟩ ⟨"A", 100, 0, 2, 0⟩ ⟨"D", 50, []⟩
        DamageType.PHYSICAL 1 (1/2)).1.final_damage :=
  C1_final_nonneg ⟨[]⟩ ⟨"A", 100, 0, 2, 0⟩ ⟨"D", 50, []⟩
    DamageType.PHYSICAL 1 (1/2) (Or.inl (by decide))

/-- C4 counterexample: a MAGICAL hit with no resistances (total reduction 0)
and `base_damage = 1/500` returns `final_damage = round(0.002, 2) = 0`, not
`damage_after_crit = 0.002`. -/
theorem C4_counterexample :
    (calculate_damage ⟨[]⟩ ⟨"A", 1/500, 0, 2, 0⟩ ⟨"D", 0, []⟩
        DamageType.MAGICAL 1 (1/2)).1.final_damage ≠
      (calculate_damage ⟨[]⟩ ⟨"A", 1/500, 0, 2, 0⟩ ⟨"D", 0, []⟩
        DamageType.MAGICAL 1 (1/2)).1.damage_after_crit := by
  rw [final_damage_of_ne_true _ _ _ _ _ (by decide), damage_after_crit_spec]
  norm_num [critDamage, totalReduction, reductionPercent, Defender.getResistance,
    pyRound2, roundHalfEven,
    (by decide : DamageType.MAGICAL ≠ DamageType.PHYSICAL)]

/-- C4 (amended): for a non-TRUE damage type with `totalReduction = 0`, the
result has `reduction = 0` and `final_damage` equal to
`max(0, damage_after_crit)` rounded to two decimal places. -/
theorem C4_zero_reduction (self : DamageCalculator) (a : Attacker) (d : Defender)
    (dt : DamageType) (sm r : ℚ) (h1 : dt ≠ DamageType.TRUE)
    (h2 : totalReduction a d dt = 0) :
    (calculate_damage self a d dt sm r).1.reduction = 0 ∧
    (calculate_damage self a d dt sm r).1.final_damage =
      pyRound2 (max 0 ((calculate_damage self a d dt sm r).1.damage_after_crit)) := by
  have hr : reductionPercent (totalReduction a d dt) = 0 := by
    rw [h2]
    norm_num [reductionPercent]
  refine ⟨?_, ?_⟩
  · rw [reduction_of_ne_true self a d sm r h1, hr, mul_zero]
  · rw [final_damage_of_ne_true self a d sm r h1, hr, damage_after_crit_spec,
      mul_zero, sub_zero]

/-- C4 witness: the amended claim applied at a concrete MAGICAL hit with no
resistances. -/
theorem C4_zero_reduction_witness :
    (calculate_damage ⟨[]⟩ ⟨"A", 100, 0, 2, 0⟩ ⟨"D", 50, []⟩
        DamageType.MAGICAL 1 (1/2)).1.reduction = 0 ∧
    (calculate_damage ⟨[]⟩ ⟨"A", 100, 0, 2, 0⟩ ⟨"D", 50, []⟩
        DamageType.MAGICAL 1 (1/2)).1.final_damage =
      pyRound2 (max 0 ((calculate_damage ⟨[]⟩ ⟨"A", 100, 0, 2, 0⟩ ⟨"D", 50, []⟩
        DamageType.MAGICAL 1 (1/2)).1.damage_after_crit)) :=
  C4_zero_reduction ⟨[]⟩ ⟨"A", 100, 0, 2, 0⟩ ⟨"D", 50, []⟩
    DamageType.MAGICAL 1 (1/2) (by decide)
    (by norm_num [totalReduction, Defender.getResistance, List.find?,
      (by decide : DamageType.MAGICAL ≠ DamageType.PHYSICAL)])

/-- C5 counterexample: a PHYSICAL hit with armor 100, no penetration and
`base_damage = 1/500` has total reduction 100, and the returned `final_damage`
is `round(0.001, 2) = 0`, not `damage_after_crit * 0.5 = 0.001`. -/
theorem C5_counterexample :
    (calculate_damage ⟨[]⟩ ⟨"A", 1/500, 0, 2, 0⟩ ⟨"D", 100, []⟩
        DamageType.PHYSICAL 1 (1/2)).1.final_damage ≠
      (calculate_damage ⟨[]⟩ ⟨"A", 1/500, 0, 2, 0⟩ ⟨"D", 100, []⟩
        DamageType.PHYSICAL 1 (1/2)).1.damage_after_crit * (1/2) := by
  rw [final_damage_of_ne_true _ _ _ _ _ (by decide), damage_after_crit_spec]
  norm_num [critDamage, totalReduction, reductionPercent, Defender.getResistance,
    pyRound2, roundHalfEven,
    (by decide : ¬ DamageType.PHYSICAL = DamageType.TRUE)]

/-- C5 (amended): for a non-TRUE damage type with `totalReduction = 100`, the
reduction fraction is 0.5, so `reduction = damage_after_crit * 0.5` exactly,
and `final_damage` equals `max(0, damage_after_crit * 0.5)` rounded to two
decimal places. -/
theorem C5_half_reduction (self : DamageCalculator) (a : Attacker) (d : Defender)
    (dt : DamageType) (sm r : ℚ) (h1 : dt ≠ DamageType.TRUE)
    (h2 : totalReduction a d dt = 100) :
    (calculate_damage self a d dt sm r).1.reduction =
      (calculate_damage self a d dt sm r).1.damage_after_crit * (1/2) ∧
    (calculate_damage self a d dt sm r).1.final_damage =
      pyRound2 (max 0
        ((calculate_damage self a d dt sm r).1.damage_after_crit * (1/2))) := by
  have hr : reductionPercent (totalReduction a d dt) = 1/2 := by
    rw [h2]
    norm_num [reductionPercent]
  refine ⟨?_, ?_⟩
  · rw [reduction_of_ne_true self a d sm r h1, hr, damage_after_crit_spec]
  · rw [final_damage_of_ne_true self a d sm r h1, hr, damage_after_crit_spec]
    have e : critDamage a sm r - critDamage a sm r * (1/2) =
        critDamage a sm r * (1/2) := by ring
    rw [e]

/-- C5 witness: the amended claim applied at a PHYSICAL hit with armor 100,
no penetration and no resistance. -/
theorem C5_half_reduction_witness :
    (calculate_damage ⟨[]⟩ ⟨"A", 100, 0, 2, 0⟩ ⟨"D", 100, []⟩
        DamageType.PHYSICAL 1 (1/2)).1.reduction =
      (calculate_damage ⟨[]⟩ ⟨"A", 100, 0, 2, 0⟩ ⟨"D", 100, []⟩
        DamageType.PHYSICAL 1 (1/2)).1.damage_after_crit * (1/2) ∧
    (calculate_damage ⟨[]⟩ ⟨"A", 100, 0, 2, 0⟩ ⟨"D", 100, []⟩
        DamageType.PHYSICAL 1 (1/2)).1.final_damage =
      pyRound2 (max 0
        ((calculate_damage ⟨[]⟩ ⟨"A", 100, 0, 2, 0⟩ ⟨"D", 100, []⟩
          DamageType.PHYSICAL 1 (1/2)).1.damage_after_crit * (1/2))) :=
  C5_half_reduction ⟨[]⟩ ⟨"A", 100, 0, 2, 0⟩ ⟨"D", 100, []⟩
    DamageType.PHYSICAL 1 (1/2) (by decide)
    (by norm_num [totalReduction, Defender.getResistance, List.find?])

/-- C6 counterexample: a FIRE hit against resistance -20 with
`base_damage = 1/500` returns `final_damage = round(0.0024, 2) = 0`, not
`damage_after_crit * 1.2 = 0.0024`. -/
theorem C6_counterexample :
    (calculate_damage ⟨[]⟩ ⟨"A", 1/500, 0, 2, 0⟩ ⟨"D", 0, [(DamageType.FIRE, -20)]⟩
        DamageType.FIRE 1 (1/2)).1.final_damage ≠
      (calculate_damage ⟨[]⟩ ⟨"A", 1/500, 0, 2, 0⟩ ⟨"D", 0, [(DamageType.FIRE, -20)]⟩
        DamageType.FIRE 1 (1/2)).1.damage_after_crit * (12/10) := by
  rw [final_damage_of_ne_true _ _ _ _ _ (by decide), damage_after_crit_spec]
  norm_num [critDamage, totalReduction, reductionPercent, Defender.getResistance,
    List.find?, pyRound2, roundHalfEven,
    (by decide : ¬ DamageType.FIRE = DamageType.PHYSICAL)]

/-- C6 (amended): for a non-TRUE, non-PHYSICAL damage type with resistance
-20, the reduction fraction is -0.2, so `reduction = damage_after_crit * (-0.2)`
exactly and `final_damage` equals `max(0, damage_after_crit * 1.2)` rounded to
two decimal places. -/
theorem C6_negative_resistance (self : DamageCalculator) (a : Attacker) (d : Defender)
    (dt : DamageType) (sm r : ℚ) (h1 : dt ≠ DamageType.TRUE)
    (h2 : dt ≠ DamageType.PHYSICAL) (h3 : d.getResistance dt = -20) :
    (calculate_damage self a d dt sm r).1.reduction =
      (calculate_damage self a d dt sm r).1.damage_after_crit * (-(1/5)) ∧
    (calculate_damage self a d dt sm r).1.final_damage =
      pyRound2 (max 0
        ((calculate_damage self a d dt sm r).1.damage_after_crit * (12/10))) := by
  have ht : totalReduction a d dt = -20 := by
    unfold totalReduction
    rw [if_neg h2, h3]
  have hr : reductionPercent (totalReduction a d dt) = -(1/5) := by
    rw [ht]
    norm_num [reductionPercent]
  refine ⟨?_, ?_⟩
  · rw [reduction_of_ne_true self a d sm r h1, hr, damage_after_crit_spec]
  · rw [final_damage_of_ne_true self a d sm r h1, hr, damage_after_crit_spec]
    have e : critDamage a sm r - critDamage a sm r * (-(1/5)) =
        critDamage a sm r * (12/10) := by ring
    rw [e]

/-- C6 witness: the amended claim applied at a FIRE hit against a defender
with FIRE resistance -20. -/
theorem C6_negative_resistance_witness :
    (calculate_damage ⟨[]⟩ ⟨"A", 100, 0, 2, 0⟩ ⟨"D", 0, [(DamageType.FIRE, -20)]⟩
        DamageType.FIRE 1 (1/2)).1.reduction =
      (calculate_damage ⟨[]⟩ ⟨"A", 100, 0, 2, 0⟩ ⟨"D", 0, [(DamageType.FIRE, -20)]⟩
        DamageType.FIRE 1 (1/2)).1.damage_after_crit * (-(1/5)) ∧
    (calculate_damage ⟨[]⟩ ⟨"A", 100, 0, 2, 0⟩ ⟨"D", 0, [(DamageType.FIRE, -20)]⟩
        DamageType.FIRE 1 (1/2)).1.final_damage =
      pyRound2 (max 0
        ((calculate_damage ⟨[]⟩ ⟨"A", 100, 0, 2, 0⟩ ⟨"D", 0, [(DamageType.FIRE, -20)]⟩
          DamageType.FIRE 1 (1/2)).1.damage_after_crit * (12/10))) :=
  C6_negative_resistance ⟨[]⟩ ⟨"A", 100, 0, 2, 0⟩ ⟨"D", 0, [(DamageType.FIRE, -20)]⟩
    DamageType.FIRE 1 (1/2) (by decide) (by decide)
    (by norm_num [Defender.getResistance, List.find?])

/-- C7: with the attacker, armor, damage type, skill multiplier and drawn `r`
fixed, raising the defender's resistance for the type (staying nonnegative)
never increases the returned `final_damage`. -/
theorem C7_resistance_monotone (self : DamageCalculator) (a : Attacker)
    (d1 d2 : Defender) (dt : DamageType) (sm r : ℚ)
    (ha : d1.armor = d2.armor)
    (h0 : 0 ≤ d1.getResistance dt)
    (hle : d1.getResistance dt ≤ d2.getResistance dt) :
    (calculate_damage self a d2 dt sm r).1.final_damage ≤
      (calculate_damage self a d1 dt sm r).1.final_damage := by
  by_cases hdt : dt = DamageType.TRUE
  · rw [final_damage_of_true self a d1 sm r hdt, final_damage_of_true self a d2 sm r hdt]
  · rw [final_damage_of_ne_true self a d1 sm r hdt,
      final_damage_of_ne_true self a d2 sm r hdt]
    exact pyRound2_mono (rawFinal_antitone _ (totalReduction_mono ha hle))

/-- C7 witness: raising FIRE resistance from 10 to 30 does not increase the
final damage of a concrete FIRE hit. -/
theorem C7_resistance_monotone_witness :
    (calculate_damage ⟨[]⟩ ⟨"A", 100, 0, 2, 0⟩ ⟨"D", 0, [(DamageType.FIRE, 30)]⟩
        DamageType.FIRE 1 (1/2)).1.final_damage ≤
      (calculate_damage ⟨[]⟩ ⟨"A", 100, 0, 2, 0⟩ ⟨"D", 0, [(DamageType.FIRE, 10)]⟩
        DamageType.FIRE 1 (1/2)).1.final_damage :=
  C7_resistance_monotone ⟨[]⟩ ⟨"A", 100, 0, 2, 0⟩
    ⟨"D", 0, [(DamageType.FIRE, 10)]⟩ ⟨"D", 0, [(DamageType.FIRE, 30)]⟩
    DamageType.FIRE 1 (1/2) rfl
    (by norm_num [Defender.getResistance, List.find?])
    (by norm_num [Defender.getResistance, List.find?])

end DamageCalc
